import Mathlib

/-!
Verification of the generated configuration header of the capdAlg package
(`include/capd/config-capdAlg.h`).  The file is embedded verbatim as its
list of lines; preprocessor directives are recovered by an executable
parser over that list, and all stated properties are decided by evaluation.
-/

/-- Path of the single source file of the repository slice. -/
def configCapdAlgPath : String :=
  "src/_codeql_build_dir/external/tmp-capd/src/capdAlg/include/capd/config-capdAlg.h"

/-- The 74 lines of `config-capdAlg.h`, transcribed verbatim from the source
(`\x60` and `\x27` denote the backquote and apostrophe characters, `\"` a
double quote). -/
def configCapdAlgLines : List String := [
    "/* include/capd/config-capdAlg.h.  Generated from config-capdAlg.h.in by configure.  */",
    "/* include/capd/config-capdAlg.h.in.  Generated from configure.ac by autoheader.  */",
    "",
    "/* define if the compiler supports basic C++11 syntax */",
    "#define HAVE_CXX11 1",
    "",
    "/* Define to 1 if you have the <dlfcn.h> header file. */",
    "#define HAVE_DLFCN_H 1",
    "",
    "/* Define to 1 if you have the <inttypes.h> header file. */",
    "#define HAVE_INTTYPES_H 1",
    "",
    "/* Define to 1 if you have the \x60gmp\x27 library (-lgmp). */",
    "/* #undef HAVE_LIBGMP */",
    "",
    "/* Define to 1 if you have the \x60gmpxx\x27 library (-lgmpxx). */",
    "/* #undef HAVE_LIBGMPXX */",
    "",
    "/* Define to 1 if you have the \x60mpfr\x27 library (-lmpfr). */",
    "/* #undef HAVE_LIBMPFR */",
    "",
    "/* Define to 1 if you have the <memory.h> header file. */",
    "#define HAVE_MEMORY_H 1",
    "",
    "/* Have mpcapdAlg */",
    "/* #undef HAVE_MPCAPD_ALG */",
    "",
    "/* PARI library */",
    "/* #undef HAVE_PARI */",
    "",
    "/* Define to 1 if you have the <stdint.h> header file. */",
    "#define HAVE_STDINT_H 1",
    "",
    "/* Define to 1 if you have the <stdlib.h> header file. */",
    "#define HAVE_STDLIB_H 1",
    "",
    "/* Define to 1 if you have the <strings.h> header file. */",
    "#define HAVE_STRINGS_H 1",
    "",
    "/* Define to 1 if you have the <string.h> header file. */",
    "#define HAVE_STRING_H 1",
    "",
    "/* Define to 1 if you have the <sys/stat.h> header file. */",
    "#define HAVE_SYS_STAT_H 1",
    "",
    "/* Define to 1 if you have the <sys/types.h> header file. */",
    "#define HAVE_SYS_TYPES_H 1",
    "",
    "/* Define to 1 if you have the <unistd.h> header file. */",
    "#define HAVE_UNISTD_H 1",
    "",
    "/* Define to the sub-directory where libtool stores uninstalled libraries. */",
    "#define LT_OBJDIR \".libs/\"",
    "",
    "/* Define to the address where bug reports for this package should be sent. */",
    "#define PACKAGE_BUGREPORT \"http://capd.ii.uj.edu.pl\"",
    "",
    "/* Define to the full name of this package. */",
    "#define PACKAGE_NAME \"capdAlg\"",
    "",
    "/* Define to the full name and version of this package. */",
    "#define PACKAGE_STRING \"capdAlg 5.1.2\"",
    "",
    "/* Define to the one symbol short name of this package. */",
    "#define PACKAGE_TARNAME \"capdalg\"",
    "",
    "/* Define to the home page for this package. */",
    "#define PACKAGE_URL \"http://capd.ii.uj.edu.pl\"",
    "",
    "/* Define to the version of this package. */",
    "#define PACKAGE_VERSION \"5.1.2\"",
    "",
    "/* Define to 1 if you have the ANSI C header files. */",
    "#define STDC_HEADERS 1"]

/-- The repository slice: each source file with its lines.  The slice holds
exactly one file, the generated header. -/
def repoFiles : List (String × List String) := [(configCapdAlgPath, configCapdAlgLines)]

/-- `leadsWith p cs` holds when the character sequence `cs` begins with `p`. -/
def leadsWith : List Char → List Char → Bool
  | [], _ => true
  | _ :: _, [] => false
  | a :: as, b :: bs => a == b && leadsWith as bs

/-- `trailsWith p cs` holds when `cs` ends with `p`. -/
def trailsWith (p cs : List Char) : Bool :=
  leadsWith p.reverse cs.reverse

/-- `occursIn p cs` holds when `p` occurs as a contiguous subsequence of `cs`. -/
def occursIn (p : List Char) : List Char → Bool
  | [] => leadsWith p []
  | c :: cs => leadsWith p (c :: cs) || occursIn p cs

/-- A line consisting only of horizontal whitespace (the header uses empty
lines as separators). -/
def isBlankLine (s : String) : Bool :=
  s.toList.all (fun c => c == ' ' || c == '\t')

/-- A whole-line C comment: starts with `/*`, ends with `*/`, and the
closing delimiter occurs nowhere before the end. -/
def isCommentLine (s : String) : Bool :=
  let cs := s.toList
  leadsWith ('/' :: '*' :: []) cs && trailsWith ('*' :: '/' :: []) cs &&
    !(occursIn ('*' :: '/' :: []) ((cs.drop 2).dropLast.dropLast))

/-- Parse a `#define NAME VALUE` directive into its name and value tokens;
`none` for any other line. -/
def parseDefine (s : String) : Option (String × String) :=
  let cs := s.toList
  if leadsWith (String.toList "#define ") cs then
    let rest := cs.drop 8
    let name := rest.takeWhile (fun c => c != ' ')
    let value := (rest.dropWhile (fun c => c != ' ')).drop 1
    some (String.mk name, String.mk value)
  else none

/-- All `#define` directives of the header, in order. -/
def defines : List (String × String) := configCapdAlgLines.filterMap parseDefine

/-- The value a macro name is defined to, if the header defines it. -/
def defineValue (n : String) : Option String := defines.lookup n

/-- The names of all macros the header defines. -/
def defineNames : List String := defines.map Prod.fst

/-- An object-like `#define` directive: the defined name carries no
parameter list (no `(` in the name token). -/
def isObjectLikeDefine (s : String) : Bool :=
  match parseDefine s with
  | some (n, _) => n.toList.all (fun c => c != '(')
  | none => false

/-- A C string-literal token: delimited by double quotes, with no interior
double quote. -/
def isCStringLit (s : String) : Bool :=
  let cs := s.toList
  decide (2 ≤ cs.length) && leadsWith ('"' :: []) cs && trailsWith ('"' :: []) cs &&
    ((cs.drop 1).dropLast.all (fun c => c != '"'))

/-- The text a C string-literal token denotes. -/
def stringLitContent (s : String) : Option String :=
  if isCStringLit s then some (String.mk ((s.toList.drop 1).dropLast)) else none

/-- ASCII lowercasing of a single character. -/
def asciiLowerChar (c : Char) : Char :=
  if 65 ≤ c.toNat && c.toNat ≤ 90 then Char.ofNat (c.toNat + 32) else c

/-- ASCII lowercasing of a string. -/
def asciiLower (s : String) : String := String.mk (s.toList.map asciiLowerChar)

/-- The feature-detection macros the header defines to `1`. -/
def featureSyms : List String :=
  ["HAVE_CXX11", "HAVE_DLFCN_H", "HAVE_INTTYPES_H", "HAVE_MEMORY_H",
   "HAVE_STDINT_H", "HAVE_STDLIB_H", "HAVE_STRINGS_H", "HAVE_STRING_H",
   "HAVE_SYS_STAT_H", "HAVE_SYS_TYPES_H", "HAVE_UNISTD_H", "STDC_HEADERS"]

/-- The optional numeric-backend macros. -/
def backendSyms : List String :=
  ["HAVE_LIBGMP", "HAVE_LIBGMPXX", "HAVE_LIBMPFR", "HAVE_PARI", "HAVE_MPCAPD_ALG"]


/-- Claim C1: every feature-detection macro the header defines among
HAVE_CXX11, HAVE_DLFCN_H, HAVE_INTTYPES_H, HAVE_MEMORY_H, HAVE_STDINT_H,
HAVE_STDLIB_H, HAVE_STRINGS_H, HAVE_STRING_H, HAVE_SYS_STAT_H,
HAVE_SYS_TYPES_H, HAVE_UNISTD_H and STDC_HEADERS is defined to the literal
value 1; in particular HAVE_DLFCN_H is defined to 1 and HAVE_STDINT_H is
defined. -/
theorem c1_feature_flags_defined_to_one :
    (featureSyms.all (fun n => defineValue n == some "1")) = true ∧
    defineValue "HAVE_DLFCN_H" = some "1" ∧
    (defineValue "HAVE_STDINT_H").isSome = true := by
  refine ⟨by decide, by decide, by decide⟩

/-- Claim C2: each optional numeric-backend macro (HAVE_LIBGMP,
HAVE_LIBGMPXX, HAVE_LIBMPFR, HAVE_PARI, HAVE_MPCAPD_ALG) is not defined by
the header, the line mentioning it is the comment `/* #undef NAME */`, and
every line where the name occurs at all is a comment line. -/
theorem c2_backend_syms_left_undefined :
    (backendSyms.all (fun n =>
      (defineValue n == none) &&
      configCapdAlgLines.contains ("/* #undef " ++ n ++ " */") &&
      configCapdAlgLines.all (fun l =>
        !(occursIn n.toList l.toList) || isCommentLine l))) = true := by
  decide

/-- Claim C3: the header contains the macros HAVE_DLFCN_H (defined),
HAVE_LIBGMP (present as an `#undef` comment) and PACKAGE_VERSION (defined),
and every one of its lines is a blank line, a whole-line comment, or an
object-like `#define` directive — no other kind of content. -/
theorem c3_contains_only_preprocessor_content :
    (defineValue "HAVE_DLFCN_H").isSome = true ∧
    configCapdAlgLines.contains "/* #undef HAVE_LIBGMP */" = true ∧
    (defineValue "PACKAGE_VERSION").isSome = true ∧
    (configCapdAlgLines.all (fun l =>
      isBlankLine l || isCommentLine l || isObjectLikeDefine l)) = true := by
  refine ⟨by decide, by decide, by decide, by decide⟩

/-- Claim C4: PACKAGE_VERSION is defined to the string literal "5.1.2" and
PACKAGE_STRING to the string literal "capdAlg 5.1.2" (both as the quoted
token in the directive and as the text the literal denotes). -/
theorem c4_version_literals :
    defineValue "PACKAGE_VERSION" = some "\"5.1.2\"" ∧
    (defineValue "PACKAGE_VERSION").bind stringLitContent = some "5.1.2" ∧
    defineValue "PACKAGE_STRING" = some "\"capdAlg 5.1.2\"" ∧
    (defineValue "PACKAGE_STRING").bind stringLitContent = some "capdAlg 5.1.2" := by
  refine ⟨by decide, by decide, by decide, by decide⟩

/-- Claim C5: PACKAGE_NAME, PACKAGE_VERSION, PACKAGE_URL and
PACKAGE_BUGREPORT are all defined, each to a C string-literal token. -/
theorem c5_package_constants_are_string_literals :
    (["PACKAGE_NAME", "PACKAGE_VERSION", "PACKAGE_URL", "PACKAGE_BUGREPORT"].all
      (fun n => match defineValue n with
        | some v => isCStringLit v
        | none => false)) = true := by
  decide

/-- Claim C6: every line of the header is blank, a whole-line comment, or
an object-like `#define`; in particular no line starts (after leading
whitespace) with `#if`, `#ifdef`, `#ifndef`, `#else`, `#endif` or
`#include`, and no `#define` carries a parameter list. -/
theorem c6_no_code_no_conditionals :
    (configCapdAlgLines.all (fun l =>
      isBlankLine l || isCommentLine l || isObjectLikeDefine l)) = true ∧
    (configCapdAlgLines.all (fun l =>
      (["#if", "#ifdef", "#ifndef", "#else", "#endif", "#include"].all
        (fun d => !(leadsWith d.toList
          (l.toList.dropWhile (fun c => c == ' ' || c == '\t'))))))) = true := by
  refine ⟨by decide, by decide⟩

/-- Claim C7: the supplied repository slice consists of a single source
file, the generated header `config-capdAlg.h`, and that file has exactly
74 lines. -/
theorem c7_single_file_of_74_lines :
    repoFiles.length = 1 ∧
    repoFiles.map Prod.fst = [configCapdAlgPath] ∧
    configCapdAlgLines.length = 74 := by
  refine ⟨by decide, by decide, by decide⟩

/-- Claim C8: the text of PACKAGE_STRING is exactly the text of
PACKAGE_NAME, a single space, and the text of PACKAGE_VERSION:
"capdAlg 5.1.2" = "capdAlg" ++ " " ++ "5.1.2". -/
theorem c8_package_string_is_name_space_version :
    (match (defineValue "PACKAGE_NAME").bind stringLitContent,
           (defineValue "PACKAGE_VERSION").bind stringLitContent,
           (defineValue "PACKAGE_STRING").bind stringLitContent with
     | some nm, some ver, some st => st == nm ++ " " ++ ver
     | _, _, _ => false) = true ∧
    (defineValue "PACKAGE_STRING").bind stringLitContent =
      some ("capdAlg" ++ " " ++ "5.1.2") := by
  refine ⟨by decide, by decide⟩

/-- Claim C9: no macro name occurs in more than one `#define` directive of
the header: the list of defined names has no duplicates. -/
theorem c9_define_names_nodup : defineNames.Nodup := by
  decide

/-- Claim C10: the text of PACKAGE_TARNAME is the ASCII-lowercase form of
the text of PACKAGE_NAME ("capdalg" = toLower "capdAlg"), and PACKAGE_URL
is defined to the same value as PACKAGE_BUGREPORT, namely
"http://capd.ii.uj.edu.pl". -/
theorem c10_tarname_lowercase_and_url_eq_bugreport :
    ((defineValue "PACKAGE_NAME").bind stringLitContent).map asciiLower =
      (defineValue "PACKAGE_TARNAME").bind stringLitContent ∧
    (defineValue "PACKAGE_TARNAME").bind stringLitContent = some "capdalg" ∧
    defineValue "PACKAGE_URL" = defineValue "PACKAGE_BUGREPORT" ∧
    (defineValue "PACKAGE_URL").bind stringLitContent =
      some "http://capd.ii.uj.edu.pl" := by
  refine ⟨by decide, by decide, by decide, by decide⟩
